import Mathlib

/-!
Shallow embedding of the customer-support workflow repository
(agent_src/tools.py, agent_src/graph.py, clients/vector_db.py).

Conventions of the embedding:
* Timestamps are integers (seconds since epoch); rendering a timestamp
  to its canonical ISO text form is modelled by keeping the integer value.
* Python dictionaries returned by tools are modelled as association
  lists `List (String × Value)`; a key that the code omits is simply
  absent from the list.
* SQL queries are modelled as pure lookups over a `Store` record that
  holds the table rows.  `ORDER BY t DESC LIMIT 1` becomes a fold that
  keeps the row with the maximal key, and `LIMIT 1` over an unordered
  select becomes the first matching row of the list.
* The language model is an external black box: each node that invokes
  it takes the hypothetical model reply as an explicit argument and
  reports, as a Bool, whether the reply was actually used (that is,
  whether a model call happens on that code path).
-/

namespace CsWorkflow

/-- JSON-like values appearing in tool results (Python dict values). -/
inductive Value where
  | vBool : Bool → Value
  | vNat : Nat → Value
  | vInt : Int → Value
  | vStr : String → Value
  | vNull : Value
  | vList : List Value → Value
  | vObj : List (String × Value) → Value

/-- A tool result: the Python dict, as an association list in insertion order. -/
abbrev ToolResult := List (String × Value)

/-- Option rendered the way the Python code renders optional DB fields. -/
def optInt : Option Int → Value
  | some t => Value.vInt t
  | none => Value.vNull

def optStr : Option String → Value
  | some s => Value.vStr s
  | none => Value.vNull

/-- Row of the orders table (seed_postgres_cs.py: tracking_no and carrier
and eta_date are nullable, the rest NOT NULL). -/
structure OrderRow where
  order_id : Nat
  customer_id : Nat
  status : String
  tracking_no : Option String
  carrier : Option String
  eta_date : Option Int

/-- Row of the shipment_events table (all columns NOT NULL in the schema;
details and location kept as plain strings). -/
structure ShipmentEventRow where
  tracking_no : String
  event_time : Int
  status : String
  location : String
  details : String

/-- Row of the payments table.  The schema declares last_attempt NOT NULL,
but tools.py defends against a non-timestamp value
(`isinstance(last_attempt, datetime)`), so the embedding keeps it optional;
`none` stands for an absent or non-timestamp value.  `status` is kept
optional because the code guards with `row.get("status") or ""`. -/
structure PaymentRow where
  order_id : Nat
  status : Option String
  last_attempt : Option Int
  failure_code : Option String
  failure_reason : Option String

/-- Row of the returns table. -/
structure ReturnRow where
  order_id : Nat
  product_id : Option Nat
  request_date : Int
  status : String

/-- Row of the products table. -/
structure ProductRow where
  product_id : Nat
  title : String

/-- Row of the shipping_methods table (cost in cents to stay integral). -/
structure ShippingMethodRow where
  region : String
  name : String
  carrier : String
  cost : Int
  est_days_min : Int
  est_days_max : Int

/-- The relational store the SQL tools read. -/
structure Store where
  orders : List OrderRow
  shipment_events : List ShipmentEventRow
  payments : List PaymentRow
  returns : List ReturnRow
  products : List ProductRow
  shipping_methods : List ShippingMethodRow

def emptyStore : Store := ⟨[], [], [], [], [], []⟩

/-! ### DB helpers (tools.py `_fetch_one` / `_fetch_all`)

The psycopg call can raise; the helpers catch every exception and
return `None` / `[]`.  The embedding makes the possible failure explicit
as a `DbOutcome` argument. -/

/-- Outcome of executing a query against the store: either the fetched
data or a database error carrying a message. -/
inductive DbOutcome (α : Type) where
  | ok : α → DbOutcome α
  | err : String → DbOutcome α

/-- tools.py `_fetch_one`: a successful fetch returns the row (or none
when the cursor is empty); any database error is caught and becomes
`none`.  Total by construction: no exception leaves the helper. -/
def fetch_one {α : Type} (outcome : DbOutcome (Option α)) : Option α :=
  match outcome with
  | .ok r => r
  | .err _ => none

/-- tools.py `_fetch_all`: a successful fetch returns the rows; any
database error is caught and becomes the empty list. -/
def fetch_all {α : Type} (outcome : DbOutcome (List α)) : List α :=
  match outcome with
  | .ok rs => rs
  | .err _ => []

/-! ### Query-level lookups shared by the tools -/

/-- `SELECT ... FROM orders WHERE order_id = %s LIMIT 1`. -/
def findOrderById (db : Store) (order_id : Nat) : Option OrderRow :=
  db.orders.find? (fun o => o.order_id == order_id)

/-- `SELECT ... FROM orders WHERE tracking_no = %s LIMIT 1`. -/
def findOrderByTracking (db : Store) (tracking_no : String) : Option OrderRow :=
  db.orders.find? (fun o => o.tracking_no == some tracking_no)

/-- Keeps the row with the later event_time (ties keep the earlier row). -/
def laterEvent (a b : ShipmentEventRow) : ShipmentEventRow :=
  if b.event_time > a.event_time then b else a

/-- `SELECT ... FROM shipment_events WHERE tracking_no = %s
ORDER BY event_time DESC LIMIT 1`. -/
def latestEventFor (db : Store) (tracking_no : String) : Option ShipmentEventRow :=
  (db.shipment_events.filter (fun e => e.tracking_no == tracking_no)).foldl
    (fun best e =>
      match best with
      | none => some e
      | some b => some (laterEvent b e))
    none

/-- The same query when the order row carries a NULL tracking_no:
`tracking_no = NULL` matches no row in SQL. -/
def latestEventForOpt (db : Store) : Option String → Option ShipmentEventRow
  | some t => latestEventFor db t
  | none => none

/-- True when candidate row `r` sorts strictly before `b` under
`ORDER BY last_attempt DESC NULLS LAST`. -/
def attemptBefore (r b : Option Int) : Bool :=
  match r, b with
  | some x, some y => x > y
  | some _, none => true
  | none, _ => false

/-- `SELECT status, last_attempt FROM payments WHERE order_id = %s
ORDER BY last_attempt DESC NULLS LAST LIMIT 1` (ties keep the earlier row). -/
def lastPaymentRow (db : Store) (order_id : Nat) : Option PaymentRow :=
  (db.payments.filter (fun p => p.order_id == order_id)).foldl
    (fun best p =>
      match best with
      | none => some p
      | some b => if attemptBefore p.last_attempt b.last_attempt then some p else some b)
    none

/-- Character-level lowercasing (Python str.lower on the code points);
kept at the List Char level so that concrete witnesses evaluate. -/
def strLower (s : String) : String :=
  ⟨s.data.map Char.toLower⟩

/-- Character-level whitespace strip (Python str.strip). -/
def strTrim (s : String) : String :=
  ⟨((s.data.dropWhile Char.isWhitespace).reverse.dropWhile Char.isWhitespace).reverse⟩

/-- Python sep.join(parts). -/
def strJoin (sep : String) : List String → String
  | [] => ""
  | [x] => x
  | x :: rest => x ++ sep ++ strJoin sep rest

/-- Char-list prefix test. -/
def charsHasPrefix : List Char → List Char → Bool
  | _, [] => true
  | [], _ :: _ => false
  | c :: cs, d :: ds => c == d && charsHasPrefix cs ds

/-- `e.status ILIKE Delivered%`: case-insensitive prefix match. -/
def isDeliveredStatus (s : String) : Bool :=
  charsHasPrefix (strLower s).data (strLower "Delivered").data

/-- The join in tool_return_eligibility: shipment events joined to the
order through tracking_no, restricted to Delivered-prefixed statuses. -/
def deliveredEventsFor (db : Store) (order_id : Nat) : List ShipmentEventRow :=
  db.shipment_events.filter (fun e =>
    isDeliveredStatus e.status &&
    db.orders.any (fun o => o.order_id == order_id && o.tracking_no == some e.tracking_no))

/-- `ORDER BY e.event_time DESC LIMIT 1` over the join above, keeping
only the selected event_time column. -/
def latestDeliveredTime (db : Store) (order_id : Nat) : Option Int :=
  ((deliveredEventsFor db order_id).foldl
    (fun best e =>
      match best with
      | none => some e
      | some b => some (laterEvent b e))
    none).map (fun e => e.event_time)

/-! ### TRACKING_STATUS tools (tools.py lines 108-239) -/

/-- The last_shipment_event sub-dict of tool_track_order_basic, with
event_time already normalised to the canonical text form. -/
def eventObj (e : ShipmentEventRow) : Value :=
  Value.vObj [("status", Value.vStr e.status), ("location", Value.vStr e.location),
    ("event_time", Value.vInt e.event_time), ("details", Value.vStr e.details)]

def optEventObj : Option ShipmentEventRow → Value
  | some e => eventObj e
  | none => Value.vNull

/-- tools.py tool_track_order_basic: basic tracking snapshot by order_id.
On a miss it returns only the discriminator and the identifier. -/
def tool_track_order_basic (db : Store) (order_id : Nat) : ToolResult :=
  match findOrderById db order_id with
  | none => [("found", Value.vBool false), ("order_id", Value.vNat order_id)]
  | some o =>
    let last_evt := latestEventForOpt db o.tracking_no
    [("found", Value.vBool true),
     ("order_id", Value.vNat o.order_id),
     ("status", Value.vStr o.status),
     ("tracking_no", optStr o.tracking_no),
     ("carrier", optStr o.carrier),
     ("eta_date", optInt o.eta_date),
     ("last_shipment_event", optEventObj last_evt)]

/-- tools.py tool_track_by_tracking_no: order plus last event by tracking_no. -/
def tool_track_by_tracking_no (db : Store) (tracking_no : String) : ToolResult :=
  match findOrderByTracking db tracking_no with
  | none => [("found", Value.vBool false), ("tracking_no", Value.vStr tracking_no)]
  | some o =>
    let last_evt := latestEventFor db tracking_no
    [("found", Value.vBool true),
     ("tracking_no", Value.vStr tracking_no),
     ("order_id", Value.vNat o.order_id),
     ("status", Value.vStr o.status),
     ("carrier", optStr o.carrier),
     ("eta_date", optInt o.eta_date),
     ("last_event", optEventObj last_evt)]

/-- Python truthiness of `t.get("tracking_no")`: NULL and the empty
string are both falsy. -/
def trackingFalsy : Option String → Bool
  | none => true
  | some t => t == ""

/-- tools.py tool_track_latest_status: latest shipment status for an
order_id, joining through tracking_no.  Note the `found` key of the hit
branch is `True if last_evt else False`, so an order with a tracking
number but no events yields found=false together with extra keys. -/
def tool_track_latest_status (db : Store) (order_id : Nat) : ToolResult :=
  match findOrderById db order_id with
  | none => [("found", Value.vBool false), ("order_id", Value.vNat order_id)]
  | some o =>
    if trackingFalsy o.tracking_no then
      [("found", Value.vBool false), ("order_id", Value.vNat order_id)]
    else
      let tno := o.tracking_no.getD ""
      let last_evt := latestEventFor db tno
      [("found", Value.vBool last_evt.isSome),
       ("order_id", Value.vNat order_id),
       ("tracking_no", Value.vStr tno),
       ("latest", optEventObj last_evt)]

/-! ### DELIVERY_OPTIONS tools (tools.py lines 244-304) -/

/-- `WHERE region IN (%s, World)`. -/
def regionMatches (region : String) (m : ShippingMethodRow) : Bool :=
  m.region == region || m.region == "World"

/-- Sort key `ORDER BY cost ASC, est_days_min ASC` as a ≤-style test. -/
def costLe (a b : ShippingMethodRow) : Bool :=
  a.cost < b.cost || (a.cost == b.cost && a.est_days_min ≤ b.est_days_min)

def methodObj (m : ShippingMethodRow) : Value :=
  Value.vObj [("name", Value.vStr m.name), ("carrier", Value.vStr m.carrier),
    ("cost", Value.vInt m.cost), ("est_days_min", Value.vInt m.est_days_min),
    ("est_days_max", Value.vInt m.est_days_max)]

def optMethodObj : Option ShippingMethodRow → Value
  | some m => methodObj m
  | none => Value.vNull

/-- tools.py tool_delivery_options_by_region: all methods for the region
with the World-region fallback, cheapest first.  The result carries no
`found` discriminator at all, only the region and the (possibly empty)
method list. -/
def tool_delivery_options_by_region (db : Store) (region : String) : ToolResult :=
  let rows := (db.shipping_methods.filter (regionMatches region)).mergeSort costLe
  [("region", Value.vStr region), ("methods", Value.vList (rows.map methodObj))]

/-- First row of `ORDER BY cost ASC, est_days_min ASC LIMIT 1`. -/
def cheapestOf (rows : List ShippingMethodRow) : Option ShippingMethodRow :=
  (rows.mergeSort costLe).head?

/-- tools.py tool_cheapest_delivery: cheapest option for the region,
optionally under `est_days_max <= max_days`.  On a miss, `found` is
false but the key `option` is still present (with a null value). -/
def tool_cheapest_delivery (db : Store) (region : String) (max_days : Option Int) :
    ToolResult :=
  let base := db.shipping_methods.filter (regionMatches region)
  let rows := match max_days with
    | some d => base.filter (fun m => m.est_days_max ≤ d)
    | none => base
  let row := cheapestOf rows
  [("found", Value.vBool row.isSome), ("region", Value.vStr region),
   ("option", optMethodObj row)]

/-- tools.py tool_estimate_delivery_cost: exact method when a name is
given, else the cheapest method (plain `ORDER BY cost ASC LIMIT 1`;
ties keep list order). -/
def tool_estimate_delivery_cost (db : Store) (region : String)
    (method_name : Option String) : ToolResult :=
  let row := match method_name with
    | some nm =>
      (db.shipping_methods.filter (regionMatches region)).find? (fun m => m.name == nm)
    | none =>
      ((db.shipping_methods.filter (regionMatches region)).mergeSort
        (fun a b => a.cost ≤ b.cost)).head?
  [("found", Value.vBool row.isSome), ("region", Value.vStr region),
   ("estimate", optMethodObj row)]

/-! ### PAYMENT_RETRY tools (tools.py lines 309-402) -/

/-- tools.py tool_last_payment_status. -/
def tool_last_payment_status (db : Store) (order_id : Nat) : ToolResult :=
  match lastPaymentRow db order_id with
  | none => [("found", Value.vBool false), ("order_id", Value.vNat order_id)]
  | some row =>
    [("found", Value.vBool true),
     ("order_id", Value.vNat order_id),
     ("status", optStr row.status),
     ("last_attempt", optInt row.last_attempt),
     ("failure_code", optStr row.failure_code),
     ("failure_reason", optStr row.failure_reason)]

def default_cooldown_minutes : Int := 30

/-- tools.py tool_can_retry_payment, with the clock passed explicitly
(`now = datetime.now(timezone.utc)`), timestamps in seconds.
status comparison is `(row.get("status") or "").lower() != "failed"`;
when last_attempt is not a timestamp the next retry time falls back to
`now`, which makes the retry allowed immediately. -/
def tool_can_retry_payment (db : Store) (now : Int) (order_id : Nat)
    (cooldown_minutes : Int) : ToolResult :=
  match lastPaymentRow db order_id with
  | none =>
    [("allowed", Value.vBool false), ("reason", Value.vStr "No payments found"),
     ("order_id", Value.vNat order_id)]
  | some row =>
    let status := strLower (row.status.getD "")
    if status != "failed" then
      [("allowed", Value.vBool false),
       ("reason", Value.vStr ("Status is " ++ status ++ " not Failed."))]
    else
      let next_time := match row.last_attempt with
        | some t => t + cooldown_minutes * 60
        | none => now
      let allowed := next_time ≤ now
      [("allowed", Value.vBool allowed),
       ("reason", Value.vStr (if allowed then "Cooldown passed" else "Cooldown not passed")),
       ("next_retry_after", Value.vInt next_time),
       ("order_id", Value.vNat order_id)]

/-- tools.py tool_payment_retry_steps: delegates to
tool_last_payment_status and branches on found / Failed. -/
def tool_payment_retry_steps (db : Store) (order_id : Nat)
    (preferred_method : Option String) : ToolResult :=
  match lastPaymentRow db order_id with
  | none =>
    [("ok", Value.vBool false), ("order_id", Value.vNat order_id),
     ("message", Value.vStr "No payment info found.")]
  | some row =>
    if strLower (row.status.getD "") != "failed" then
      [("ok", Value.vBool false), ("order_id", Value.vNat order_id),
       ("message", Value.vStr "Payment is not in Failed state.")]
    else
      [("ok", Value.vBool true), ("order_id", Value.vNat order_id),
       ("steps", Value.vList
         [Value.vStr "Откройте страницу заказа.",
          Value.vStr "Нажмите «Повторить платёж».",
          Value.vStr ("Выберите метод оплаты (" ++
            preferred_method.getD "рекомендуется: CreditCard" ++ ")."),
          Value.vStr "Подтвердите оплату."]),
       ("last_attempt", optInt row.last_attempt),
       ("failure_code", optStr row.failure_code),
       ("failure_reason", optStr row.failure_reason)]

/-! ### RETURN_ISSUE tools (tools.py lines 407-478) -/

/-- `ORDER BY r.request_date DESC LIMIT 1` over returns of the order. -/
def lastReturnRow (db : Store) (order_id : Nat) : Option ReturnRow :=
  (db.returns.filter (fun r => r.order_id == order_id)).foldl
    (fun best r =>
      match best with
      | none => some r
      | some b => if r.request_date > b.request_date then some r else some b)
    none

/-- tools.py tool_last_return_status (LEFT JOIN products for the title). -/
def tool_last_return_status (db : Store) (order_id : Nat) : ToolResult :=
  match lastReturnRow db order_id with
  | none => [("found", Value.vBool false), ("order_id", Value.vNat order_id)]
  | some r =>
    let title := r.product_id.bind (fun pid =>
      (db.products.find? (fun p => p.product_id == pid)).map (fun p => p.title))
    [("found", Value.vBool true),
     ("order_id", Value.vNat order_id),
     ("status", Value.vStr r.status),
     ("request_date", Value.vInt r.request_date),
     ("product_title", optStr title)]

def default_policy_days : Int := 14

/-- Python timedelta.days floors, so elapsed whole days are the floor
division of the elapsed seconds by 86400. -/
def wholeDays (now delivered_at : Int) : Int :=
  Int.fdiv (now - delivered_at) 86400

/-- tools.py tool_return_eligibility: the latest Delivered-prefixed
event of the order decides; eligible iff elapsed whole days ≤ policy
window.  The no-event branch still carries reason, policy_days and a
null delivered_at. -/
def tool_return_eligibility (db : Store) (now : Int) (order_id : Nat)
    (policy_days : Int) : ToolResult :=
  match latestDeliveredTime db order_id with
  | none =>
    [("eligible", Value.vBool false),
     ("reason", Value.vStr "No Delivered event found."),
     ("order_id", Value.vNat order_id),
     ("policy_days", Value.vInt policy_days),
     ("delivered_at", Value.vNull)]
  | some delivered_at =>
    let days := wholeDays now delivered_at
    [("eligible", Value.vBool (days ≤ policy_days)),
     ("order_id", Value.vNat order_id),
     ("policy_days", Value.vInt policy_days),
     ("delivered_at", Value.vInt delivered_at),
     ("days_since_delivery", Value.vInt days)]

/-- tools.py tool_request_return_label: mocked side effect. -/
def tool_request_return_label (order_id : Nat) (email : String) : ToolResult :=
  [("created", Value.vBool true), ("order_id", Value.vNat order_id),
   ("email", Value.vStr email)]

/-! ### Knowledge retrieval (tools.py retrieve_support_docs, lines 72-103)

The vector index is a list of chunks; each chunk carries the metadata
keys `filename` and `chunk_index` (either may be missing, hence the
options) and the document text.  Similarity search itself is an
external black box, so the list of hits it returns is an explicit
argument; the adjacency expansion against the index is what the code
owns and what the embedding reproduces. -/

structure Chunk where
  filename : Option String
  chunk_index : Option Int
  content : String

/-- `db.get(where filename = f AND chunk_index IN [i-1, i, i+1])`,
in index order. -/
def neighborDocs (index : List Chunk) (f : String) (i : Int) : List String :=
  (index.filter (fun c =>
    c.filename == some f &&
    (c.chunk_index == some (i - 1) || c.chunk_index == some i ||
      c.chunk_index == some (i + 1)))).map (fun c => c.content)

/-- The contribution of one hit: its neighbor window when both metadata
keys are present (`if filename is not None and chunk_index is not None`),
nothing otherwise. -/
def expandHit (index : List Chunk) (doc : Chunk) : List String :=
  match doc.filename, doc.chunk_index with
  | some f, some i => neighborDocs index f i
  | _, _ => []

/-- tools.py retrieve_support_docs: for every hit with both metadata
keys present, extend all_chunks with the current, previous and next
chunk of the same file; hits with missing metadata contribute nothing.
A missing neighbor simply matches no index entry, so the function is
total — nothing fails when position p-1 or p+1 does not exist. -/
def retrieve_support_docs (index : List Chunk) (hits : List Chunk) : List String :=
  hits.foldl (fun all_chunks doc => all_chunks ++ expandHit index doc) []

/-! ### Conversation messages (graph.py) -/

/-- Message content: a plain string or a list of items (graph.py
get_last_human_message joins the string items with spaces). -/
inductive Content where
  | str : String → Content
  | items : List String → Content

def contentText : Content → String
  | .str s => s
  | .items l => strJoin " " l

/-- A conversation turn: role ("human", "ai", "tool"), content, and the
tool calls requested by an assistant turn (empty for other roles, which
models the absent attribute). -/
structure Msg where
  role : String
  content : Content
  tool_calls : List String

def mkHuman (s : String) : Msg := ⟨"human", Content.str s, []⟩
def mkAI (s : String) : Msg := ⟨"ai", Content.str s, []⟩

/-- graph.py get_last_human_message: walk the messages from the end and
return the content text of the first human turn, or the empty string. -/
def get_last_human_message (messages : List Msg) : String :=
  match messages.reverse.find? (fun m => m.role == "human") with
  | some m => contentText m.content
  | none => ""

/-! ### Intent classifier (graph.py lines 88-130) -/

/-- The closed enumeration of routing labels
(IntentClassification.next). -/
def intentLabels : List String := ["rag", "tools", "general", "cannot_help"]

/-- Parsing of the raw model output: graph.py lowers and strips the
reply, then pydantic accepts it only when it is exactly one of the four
labels; otherwise a validation error is raised and caught. -/
def parseIntent (reply : String) : Option String :=
  let answer := strLower (strTrim reply)
  if intentLabels.contains answer then some answer else none

/-- graph.py unified_intent_classifier.  Returns the routing decision
stored in the module-level `_routing_decision` together with a Bool
telling whether the model was invoked on that path.  Empty message
list, absence of a human turn (empty extracted text), and an
unparseable reply all default the decision to "general"; the first two
short-circuit before the model call. -/
def unified_intent_classifier (messages : List Msg) (modelReply : String) :
    String × Bool :=
  if messages.isEmpty then ("general", false)
  else if get_last_human_message messages == "" then ("general", false)
  else
    match parseIntent modelReply with
    | some label => (label, true)
    | none => ("general", true)

/-! ### Knowledge step (graph.py rag_agent, lines 133-161) -/

/-- graph.py line 147: the context handed to the model is the direct
similarity hits joined by newlines — the hits only, nothing fetched
beyond them. -/
def rag_agent_context (retrieved_docs : List Chunk) : String :=
  strJoin "\n" (retrieved_docs.map (fun d => d.content))

/-- graph.py rag_agent: guard on a missing user message, otherwise a
similarity search (the hits are an argument, as the search is external)
followed by a model call over the joined context.  The result records
the produced turns, whether the model was invoked, and the context
string that was embedded in the prompt (none when no model call
happens). -/
def rag_agent (messages : List Msg) (hits : List Chunk) (modelReply : String) :
    List Msg × Bool × Option String :=
  if get_last_human_message messages == "" then
    ([mkAI "Не могу обработать запрос без сообщения."], false, none)
  else
    ([mkAI modelReply], true, some (rag_agent_context hits))

/-! ### Conversational step (graph.py general_response, lines 185-217) -/

/-- Char-list substring test: the needle is a prefix of some suffix. -/
def charsContains (s w : List Char) : Bool :=
  match s with
  | [] => charsHasPrefix [] w
  | _ :: tail => charsHasPrefix s w || charsContains tail w

/-- Python substring test `word in user_msg`. -/
def strContains (s w : String) : Bool :=
  charsContains s.data w.data

def anyWordIn (s : String) (ws : List String) : Bool :=
  ws.any (fun w => strContains s w)

def default_greeting : String := "Привет! Чем могу помочь?"

def greeting_reply : String :=
  "Привет! Я ассистент поддержки клиентов. Могу помочь с заказами, доставкой, платежами и возвратами. Что вас интересует?"

def capabilities_reply : String :=
  "Я помогаю с:\n• Отслеживанием заказов\n• Вариантами доставки\n• Вопросами по оплате\n• Возвратами товаров\n• Общими вопросами поддержки\n\nО чем хотите узнать?"

def thanks_reply : String :=
  "Пожалуйста! Если возникнут еще вопросы - обращайтесь."

def curiosity_reply : String :=
  "Могу рассказать о наших сервисах поддержки клиентов! Мы помогаем отслеживать заказы, выбирать варианты доставки, решать вопросы с оплатой и оформлять возвраты. Есть конкретные вопросы?"

/-- graph.py general_response: canned greeting on empty input or no
human turn (no model call), then keyword groups over the lowercased
utterance, falling through to a model call.  The Bool reports whether
the model was invoked. -/
def general_response (messages : List Msg) (modelReply : String) :
    List Msg × Bool :=
  if messages.isEmpty then ([mkAI default_greeting], false)
  else
    let user_msg_raw := get_last_human_message messages
    if user_msg_raw == "" then ([mkAI default_greeting], false)
    else
      let user_msg := strLower user_msg_raw
      if anyWordIn user_msg ["привет", "здравствуй", "добрый", "hello", "hi"] then
        ([mkAI greeting_reply], false)
      else if anyWordIn user_msg ["что можешь", "что умеешь", "возможности", "помощь", "help"] then
        ([mkAI capabilities_reply], false)
      else if anyWordIn user_msg ["спасибо", "благодарю", "thanks"] then
        ([mkAI thanks_reply], false)
      else if anyWordIn user_msg ["интересного", "interesting", "расскажешь", "tell me"] then
        ([mkAI curiosity_reply], false)
      else
        ([mkAI modelReply], true)

/-! ### Refusal step (graph.py cannot_help, lines 220-226) -/

def refusal_message : String :=
  "Извините, я могу помочь только с вопросами поддержки клиентов: отслеживание заказов, варианты доставки, вопросы по оплате, возвраты и общие вопросы о сервисе. Есть ли что-то из этого, с чем я могу помочь?"

/-- graph.py cannot_help: the refusal node. -/
def cannot_help (_state : List Msg) : List Msg :=
  [mkAI refusal_message]

/-! ### Graph wiring (graph.py lines 235-292) -/

/-- graph.py tools_or_end_condition: "tools" when the last message
carries at least one tool call, otherwise END. -/
def tools_or_end_condition (messages : List Msg) : String :=
  match messages.getLast? with
  | some m => if m.tool_calls.isEmpty then "END" else "tools"
  | none => "END"

/-- The edges of the compiled graph: given the current node, the
message state and the routing decision, the next node (`none` when the
node has no outgoing edge in the builder, which cannot occur on the
nodes actually added).  rag_agent, general_response and cannot_help go
straight to END; the react agent branches through
tools_or_end_condition; the tools node always returns to the react
agent. -/
def graphNext (node : String) (messages : List Msg) (route : String) :
    Option String :=
  if node == "unified_intent_classifier" then
    if route == "rag" then some "rag_agent"
    else if route == "tools" then some "react_tool_agent"
    else if route == "general" then some "general_response"
    else if route == "cannot_help" then some "cannot_help"
    else none
  else if node == "rag_agent" then some "END"
  else if node == "react_tool_agent" then some (tools_or_end_condition messages)
  else if node == "tools" then some "react_tool_agent"
  else if node == "general_response" then some "END"
  else if node == "cannot_help" then some "END"
  else none

/-- Walking the graph along a schedule of message states: each step
feeds the current node and the message list of that step to graphNext;
a missing edge parks the walk on "END". -/
def runNodes (start : String) (schedule : List (List Msg)) (route : String) :
    String :=
  schedule.foldl (fun node msgs => (graphNext node msgs route).getD "END") start

/-- An assistant turn that requests one tool call. -/
def msgWithToolCall : Msg := ⟨"ai", Content.str "", ["tool_track_order_basic"]⟩

/-! ### Concrete fixtures used by the witness theorems -/

/-- A store holding one failed payment whose last_attempt is absent. -/
def storeFailedNoTs : Store :=
  ⟨[], [], [⟨1001, some "Failed", none, none, none⟩], [], [], []⟩

/-- A store holding one failed payment attempted at time 0. -/
def storeFailedAt0 : Store :=
  ⟨[], [], [⟨1001, some "Failed", some 0, none, none⟩], [], [], []⟩

/-- A store where order 1001 was delivered at time 0. -/
def storeDelivered : Store :=
  ⟨[⟨1001, 501, "Delivered", some "TN1", some "UPS", none⟩],
   [⟨"TN1", 0, "Delivered", "Newark, NJ", ""⟩], [], [], [], []⟩

/-- A three-chunk knowledge index over one source file. -/
def kbIndex : List Chunk :=
  [⟨some "faq.md", some 0, "alpha"⟩,
   ⟨some "faq.md", some 1, "beta"⟩,
   ⟨some "faq.md", some 2, "gamma"⟩]

/-- The middle chunk, as the single similarity hit. -/
def kbHit : Chunk := ⟨some "faq.md", some 1, "beta"⟩

/-! ## Theorems -/

/-- C9: the refusal step is a constant function — every input state
produces the same single fixed message, and that message names all four
supported domains (order tracking, delivery options, payment, returns). -/
theorem cannot_help_is_constant :
    (∀ s : List Msg, cannot_help s = [mkAI refusal_message]) ∧
    strContains refusal_message "отслеживание заказов" = true ∧
    strContains refusal_message "варианты доставки" = true ∧
    strContains refusal_message "оплате" = true ∧
    strContains refusal_message "возвраты" = true :=
  ⟨fun _ => rfl, by decide, by decide, by decide, by decide⟩

/-- C6: a database error in either fetch helper is absorbed at the tool
boundary — `_fetch_one` turns it into `none` (treated downstream as not
found) and `_fetch_all` into the empty row list; both helpers are total
functions of the query outcome, so no store exception ever escapes to
the orchestration layer, and a tool seeing the `none` row answers with
its structured not-found record. -/
theorem db_errors_become_not_found :
    (∀ e : String, @fetch_one OrderRow (DbOutcome.err e) = none) ∧
    (∀ e : String, @fetch_all OrderRow (DbOutcome.err e) = []) ∧
    (∀ o : Option OrderRow, fetch_one (DbOutcome.ok o) = o) ∧
    (∀ rs : List OrderRow, fetch_all (DbOutcome.ok rs) = rs) ∧
    (∀ (db : Store) (order_id : Nat), findOrderById db order_id = none →
      tool_track_order_basic db order_id =
        [("found", Value.vBool false), ("order_id", Value.vNat order_id)]) := by
  refine ⟨fun _ => rfl, fun _ => rfl, fun _ => rfl, fun _ => rfl, ?_⟩
  intro db order_id h
  unfold tool_track_order_basic
  rw [h]

/-- C6 witness: the not-found conversion evaluated on the empty store. -/
theorem db_errors_become_not_found_witness :
    tool_track_order_basic emptyStore 1001 =
      [("found", Value.vBool false), ("order_id", Value.vNat 1001)] :=
  db_errors_become_not_found.2.2.2.2 emptyStore 1001 rfl

/-- C8: on an empty utterance list the classifier decides "general"
without invoking the model, the graph routes to the conversational
node, that node answers with the fixed default greeting again without
invoking the model, and the walk ends; none of the functions on this
path takes the store or the vector index as input. -/
theorem empty_request_default_greeting :
    (∀ reply : String, unified_intent_classifier [] reply = ("general", false)) ∧
    graphNext "unified_intent_classifier" [] "general" = some "general_response" ∧
    (∀ reply : String, general_response [] reply = ([mkAI default_greeting], false)) ∧
    (∀ route : String, graphNext "general_response" [] route = some "END") :=
  ⟨fun _ => rfl, rfl, fun _ => rfl, fun _ => rfl⟩

/-- C3: payment-retry eligibility.  Whenever the last payment row has a
status (lowercased, empty for NULL) other than the failure state "failed",
the tool answers allowed=false regardless of any elapsed time; when it
is "failed" and the elapsed time since the last attempt is below the
cooldown (minutes), allowed=false; when the elapsed time reaches or
passes the cooldown, allowed=true; and the cooldown parameter defaults
to 30 minutes. -/
theorem tool_can_retry_payment_spec (db : Store) (now : Int) (order_id : Nat)
    (cooldown_minutes : Int) :
    (∀ row, lastPaymentRow db order_id = some row →
      strLower (row.status.getD "") ≠ "failed" →
      (tool_can_retry_payment db now order_id cooldown_minutes).lookup "allowed" =
        some (Value.vBool false)) ∧
    (∀ row t, lastPaymentRow db order_id = some row →
      strLower (row.status.getD "") = "failed" → row.last_attempt = some t →
      now - t < cooldown_minutes * 60 →
      (tool_can_retry_payment db now order_id cooldown_minutes).lookup "allowed" =
        some (Value.vBool false)) ∧
    (∀ row t, lastPaymentRow db order_id = some row →
      strLower (row.status.getD "") = "failed" → row.last_attempt = some t →
      cooldown_minutes * 60 ≤ now - t →
      (tool_can_retry_payment db now order_id cooldown_minutes).lookup "allowed" =
        some (Value.vBool true)) ∧
    default_cooldown_minutes = 30 := by
  refine ⟨?_, ?_, ?_, rfl⟩
  · intro row hrow hstatus
    unfold tool_can_retry_payment
    rw [hrow]
    simp only [ne_eq] at hstatus
    simp [hstatus]
  · intro row t hrow hstatus hatt hlt
    unfold tool_can_retry_payment
    rw [hrow]
    simp [hstatus, hatt, List.lookup]
    omega
  · intro row t hrow hstatus hatt hge
    unfold tool_can_retry_payment
    rw [hrow]
    simp [hstatus, hatt, List.lookup]
    omega

/-- C3 witness: one failed payment attempted at time 0; with the
default 30-minute cooldown the retry is refused at 100 seconds and
allowed at exactly 1800 seconds. -/
theorem tool_can_retry_payment_spec_witness :
    (tool_can_retry_payment storeFailedAt0 100 1001 30).lookup "allowed" =
      some (Value.vBool false) ∧
    (tool_can_retry_payment storeFailedAt0 1800 1001 30).lookup "allowed" =
      some (Value.vBool true) :=
  ⟨(tool_can_retry_payment_spec storeFailedAt0 100 1001 30).2.1
      ⟨1001, some "Failed", some 0, none, none⟩ 0 rfl rfl rfl (by decide),
   (tool_can_retry_payment_spec storeFailedAt0 1800 1001 30).2.2.1
      ⟨1001, some "Failed", some 0, none, none⟩ 0 rfl rfl rfl (by decide)⟩

/-- C10: when the most recent payment row has the failure status (any
letter case, via lowercasing) but its last_attempt is absent or not a
timestamp, the next retry time falls back to the current clock, so the
tool answers allowed=true immediately and reports next_retry_after as
the current time. -/
theorem tool_can_retry_payment_no_timestamp (db : Store) (now : Int)
    (order_id : Nat) (cooldown_minutes : Int) (row : PaymentRow)
    (hrow : lastPaymentRow db order_id = some row)
    (hstatus : strLower (row.status.getD "") = "failed")
    (hatt : row.last_attempt = none) :
    (tool_can_retry_payment db now order_id cooldown_minutes).lookup "allowed" =
      some (Value.vBool true) ∧
    (tool_can_retry_payment db now order_id cooldown_minutes).lookup
      "next_retry_after" = some (Value.vInt now) := by
  unfold tool_can_retry_payment
  rw [hrow]
  simp [hstatus, hatt, List.lookup]

/-- C10 witness: a failed payment with no usable timestamp is retryable
at once, with next_retry_after equal to the clock value 5000. -/
theorem tool_can_retry_payment_no_timestamp_witness :
    (tool_can_retry_payment storeFailedNoTs 5000 1001 30).lookup "allowed" =
      some (Value.vBool true) ∧
    (tool_can_retry_payment storeFailedNoTs 5000 1001 30).lookup
      "next_retry_after" = some (Value.vInt 5000) :=
  tool_can_retry_payment_no_timestamp storeFailedNoTs 5000 1001 30
    ⟨1001, some "Failed", none, none, none⟩ rfl rfl rfl

/-- C4: return eligibility.  Without any Delivered shipment event for
the order the tool answers eligible=false; when the latest Delivered
event lies N whole days in the past and the policy window is W days,
the tool answers eligible=true exactly when N ≤ W — in particular the
boundary N = W is still eligible; and the window parameter defaults to
14 days. -/
theorem tool_return_eligibility_spec (db : Store) (now : Int) (order_id : Nat)
    (policy_days : Int) :
    (latestDeliveredTime db order_id = none →
      (tool_return_eligibility db now order_id policy_days).lookup "eligible" =
        some (Value.vBool false)) ∧
    (∀ t N, latestDeliveredTime db order_id = some t → wholeDays now t = N →
      ((tool_return_eligibility db now order_id policy_days).lookup "eligible" =
        some (Value.vBool true) ↔ N ≤ policy_days)) ∧
    default_policy_days = 14 := by
  refine ⟨?_, ?_, rfl⟩
  · intro h
    unfold tool_return_eligibility
    rw [h]
    rfl
  · intro t N ht hdays
    unfold tool_return_eligibility
    rw [ht]
    simp [List.lookup, hdays]

/-- C4 witness: order 1001 delivered at time 0; with the default
14-day window the boundary clock value of exactly 14 whole days is
still eligible, and the empty store (no Delivered event) is not. -/
theorem tool_return_eligibility_spec_witness :
    ((tool_return_eligibility storeDelivered 1209600 1001 14).lookup "eligible" =
      some (Value.vBool true)) ∧
    ((tool_return_eligibility emptyStore 1209600 1001 14).lookup "eligible" =
      some (Value.vBool false)) :=
  ⟨((tool_return_eligibility_spec storeDelivered 1209600 1001 14).2.1 0 14
      rfl rfl).mpr (by decide),
   (tool_return_eligibility_spec emptyStore 1209600 1001 14).1 rfl⟩

/-- A successfully parsed label is one of the four enumeration labels. -/
theorem parseIntent_mem (reply label : String) (h : parseIntent reply = some label) :
    label ∈ intentLabels := by
  unfold parseIntent at h
  dsimp only at h
  split at h
  next hc =>
    cases h
    exact List.elem_iff.mp hc
  next => cases h

/-- C5: classifier fallbacks and closedness.  An empty message list and
the absence of any user turn (the extracted utterance is empty) both
decide "general" without a model call; a model reply that fails to
parse as one of the four labels also decides "general"; and in every
case the decision lies in the closed set of the four labels. -/
theorem unified_intent_classifier_spec :
    (∀ reply, unified_intent_classifier [] reply = ("general", false)) ∧
    (∀ msgs reply, get_last_human_message msgs = "" →
      (unified_intent_classifier msgs reply).1 = "general") ∧
    (∀ msgs reply, parseIntent reply = none →
      (unified_intent_classifier msgs reply).1 = "general") ∧
    (∀ msgs reply, (unified_intent_classifier msgs reply).1 ∈ intentLabels) := by
  refine ⟨fun _ => rfl, ?_, ?_, ?_⟩
  · intro msgs reply h
    unfold unified_intent_classifier
    split
    · rfl
    · rw [if_pos (by simp [h])]
  · intro msgs reply h
    unfold unified_intent_classifier
    split
    · rfl
    · split
      · rfl
      · rw [h]
  · intro msgs reply
    unfold unified_intent_classifier
    split
    · simp [intentLabels]
    · split
      · simp [intentLabels]
      · cases hp : parseIntent reply with
        | none => simp [intentLabels]
        | some label => simpa using parseIntent_mem reply label hp

/-- C5 witness: a message list with no user turn decides "general", and
so does the unparseable model reply "banana" on a real user turn. -/
theorem unified_intent_classifier_spec_witness :
    (unified_intent_classifier [mkAI "hi"] "rag").1 = "general" ∧
    (unified_intent_classifier [mkHuman "как дела с заказом"] "banana").1 = "general" ∧
    (unified_intent_classifier [mkHuman "вопрос"] "tools").1 ∈ intentLabels :=
  ⟨unified_intent_classifier_spec.2.1 [mkAI "hi"] "rag" rfl,
   unified_intent_classifier_spec.2.2.1 [mkHuman "как дела с заказом"] "banana" rfl,
   unified_intent_classifier_spec.2.2.2 [mkHuman "вопрос"] "tools"⟩

/-- One step of the graph walk peels one schedule entry. -/
theorem runNodes_cons (start : String) (msgs : List Msg)
    (rest : List (List Msg)) (route : String) :
    runNodes start (msgs :: rest) route =
      runNodes ((graphNext start msgs route).getD "END") rest route := rfl

/-- Starting inside the react/tools pair and always presenting a
message state whose last turn requests a tool call, the walk stays
inside the pair forever. -/
theorem runNodes_replicate_stays (route : String) :
    ∀ (n : Nat) (start : String),
      start = "react_tool_agent" ∨ start = "tools" →
      runNodes start (List.replicate n [msgWithToolCall]) route = "react_tool_agent" ∨
      runNodes start (List.replicate n [msgWithToolCall]) route = "tools" := by
  intro n
  induction n with
  | zero =>
    intro start h
    simpa [runNodes] using h
  | succ n ih =>
    intro start h
    rw [List.replicate_succ, runNodes_cons]
    rcases h with h | h <;> subst h
    · exact ih _ (Or.inr rfl)
    · exact ih _ (Or.inl rfl)

/-- C7: the tool-using loop.  From the model-decision node the graph
moves to tool execution exactly when the last appended response
requests at least one tool call, and ends exactly when it requests
none; the tools node unconditionally hands control back to the
model-decision node; and no iteration cap exists — for every n, a walk
that keeps requesting tool calls is still inside the loop after n
steps. -/
theorem react_tool_loop_spec :
    (∀ msgs route m, msgs.getLast? = some m → m.tool_calls ≠ [] →
      graphNext "react_tool_agent" msgs route = some "tools") ∧
    (∀ msgs route m, msgs.getLast? = some m → m.tool_calls = [] →
      graphNext "react_tool_agent" msgs route = some "END") ∧
    (∀ msgs route, graphNext "tools" msgs route = some "react_tool_agent") ∧
    (∀ (n : Nat) route,
      runNodes "react_tool_agent" (List.replicate n [msgWithToolCall]) route ≠ "END") := by
  refine ⟨?_, ?_, fun _ _ => rfl, ?_⟩
  · intro msgs route m hlast hcalls
    show some (tools_or_end_condition msgs) = some "tools"
    unfold tools_or_end_condition
    rw [hlast]
    simp [hcalls]
  · intro msgs route m hlast hcalls
    show some (tools_or_end_condition msgs) = some "END"
    unfold tools_or_end_condition
    rw [hlast]
    simp [hcalls]
  · intro n route
    rcases runNodes_replicate_stays route n "react_tool_agent" (Or.inl rfl) with h | h <;>
      rw [h] <;> decide

/-- C7 witness: a last turn with one tool call moves to the tools node,
a last turn without tool calls ends the step, and the walk that keeps
requesting tools is still alive after three rounds. -/
theorem react_tool_loop_spec_witness :
    graphNext "react_tool_agent" [msgWithToolCall] "tools" = some "tools" ∧
    graphNext "react_tool_agent" [mkAI "done"] "tools" = some "END" ∧
    runNodes "react_tool_agent" (List.replicate 3 [msgWithToolCall]) "tools" ≠ "END" :=
  ⟨react_tool_loop_spec.1 [msgWithToolCall] "tools" msgWithToolCall rfl (by decide),
   react_tool_loop_spec.2.1 [mkAI "done"] "tools" (mkAI "done") rfl rfl,
   react_tool_loop_spec.2.2.2 3 "tools"⟩

/-- C1 counterexample: not every tool in the layer obeys the claimed
not-found shape.  For a region absent from the store,
tool_delivery_options_by_region returns a result with no `found` key at
all (so "the result has found=false" fails), and tool_cheapest_delivery
returns found=false while still carrying the domain key `option` (with
a null value). -/
theorem delivery_miss_lacks_discriminator :
    (tool_delivery_options_by_region emptyStore "Atlantis").lookup "found" = none ∧
    tool_delivery_options_by_region emptyStore "Atlantis" =
      [("region", Value.vStr "Atlantis"), ("methods", Value.vList [])] ∧
    (tool_cheapest_delivery emptyStore "Atlantis" none).lookup "option" =
      some Value.vNull := by
  refine ⟨?_, ?_, ?_⟩ <;>
    simp [tool_delivery_options_by_region, tool_cheapest_delivery, cheapestOf,
      optMethodObj, emptyStore, List.lookup]

/-- C1 (amended): the three tracking tools do obey the invariant — for
an identifier not present in the store each returns exactly the
discriminator found=false and the identifying key, nothing else. -/
theorem tracking_tools_miss_minimal (db : Store) (order_id : Nat) (tno : String)
    (h1 : ∀ o ∈ db.orders, o.order_id ≠ order_id)
    (h2 : ∀ o ∈ db.orders, o.tracking_no ≠ some tno) :
    tool_track_order_basic db order_id =
      [("found", Value.vBool false), ("order_id", Value.vNat order_id)] ∧
    tool_track_latest_status db order_id =
      [("found", Value.vBool false), ("order_id", Value.vNat order_id)] ∧
    tool_track_by_tracking_no db tno =
      [("found", Value.vBool false), ("tracking_no", Value.vStr tno)] := by
  have hid : findOrderById db order_id = none := by
    unfold findOrderById
    rw [List.find?_eq_none]
    intro o ho
    simpa using h1 o ho
  have htn : findOrderByTracking db tno = none := by
    unfold findOrderByTracking
    rw [List.find?_eq_none]
    intro o ho
    simpa using h2 o ho
  refine ⟨?_, ?_, ?_⟩
  · unfold tool_track_order_basic
    rw [hid]
  · unfold tool_track_latest_status
    rw [hid]
  · unfold tool_track_by_tracking_no
    rw [htn]

/-- C1 witness: the amended invariant evaluated against a store that
holds an unrelated order, for identifiers that are absent. -/
theorem tracking_tools_miss_minimal_witness :
    tool_track_order_basic storeDelivered 2002 =
      [("found", Value.vBool false), ("order_id", Value.vNat 2002)] ∧
    tool_track_latest_status storeDelivered 2002 =
      [("found", Value.vBool false), ("order_id", Value.vNat 2002)] ∧
    tool_track_by_tracking_no storeDelivered "TN9" =
      [("found", Value.vBool false), ("tracking_no", Value.vStr "TN9")] :=
  tracking_tools_miss_minimal storeDelivered 2002 "TN9"
    (by intro o ho; simp [storeDelivered] at ho; simp [ho])
    (by intro o ho; simp [storeDelivered] at ho; simp [ho])

/-- C2 counterexample: with an index holding chunks 0,1,2 of one file
and the similarity search returning the middle chunk, the knowledge
step hands the model the context "beta" alone — the neighbor passages
"alpha" and "gamma" that the claim requires are absent — while the
adjacency expansion the claim describes is what the separate
retrieve_support_docs tool computes. -/
theorem rag_agent_context_no_expansion :
    (rag_agent [mkHuman "question"] [kbHit] "reply").2.2 = some "beta" ∧
    strContains "beta" "alpha" = false ∧
    strContains "beta" "gamma" = false ∧
    retrieve_support_docs kbIndex [kbHit] = ["alpha", "beta", "gamma"] :=
  ⟨rfl, by decide, by decide, rfl⟩

/-- Folding list appends is concatenation of the per-element blocks. -/
theorem foldl_append_eq_bind (f : Chunk → List String) :
    ∀ (l : List Chunk) (init : List String),
      l.foldl (fun acc x => acc ++ f x) init = init ++ l.flatMap f := by
  intro l
  induction l with
  | nil => intro init; simp
  | cons x xs ih =>
    intro init
    rw [List.foldl_cons, ih, List.flatMap_cons, List.append_assoc]

/-- C2 (amended): the knowledge step builds its context from the
similarity hits alone, joined in retrieval order; the widening by the
immediately preceding and following chunk of the same file — tolerant
of missing neighbors, which simply contribute nothing — is the behavior
of the retrieve_support_docs tool: every index chunk of the same file
at position p-1, p or p+1 of any hit appears among its returned
chunks. -/
theorem knowledge_context_and_tool_expansion :
    (∀ msgs hits reply, get_last_human_message msgs ≠ "" →
      (rag_agent msgs hits reply).2.2 =
        some (strJoin "\n" (hits.map (fun d => d.content)))) ∧
    (∀ (index hits : List Chunk) (hit c : Chunk) (f : String) (p : Int),
      hit ∈ hits → hit.filename = some f → hit.chunk_index = some p →
      c ∈ index → c.filename = some f →
      (c.chunk_index = some (p - 1) ∨ c.chunk_index = some p ∨
        c.chunk_index = some (p + 1)) →
      c.content ∈ retrieve_support_docs index hits) := by
  constructor
  · intro msgs hits reply h
    unfold rag_agent
    rw [if_neg (by simpa using h)]
    rfl
  · intro index hits hit c f p hmem hf hp hc hcf hci
    unfold retrieve_support_docs
    rw [foldl_append_eq_bind, List.nil_append, List.mem_flatMap]
    refine ⟨hit, hmem, ?_⟩
    have hexp : expandHit index hit = neighborDocs index f p := by
      unfold expandHit
      rw [hf, hp]
    rw [hexp]
    unfold neighborDocs
    rw [List.mem_map]
    refine ⟨c, ?_, rfl⟩
    rw [List.mem_filter]
    refine ⟨hc, ?_⟩
    rw [hcf]
    rcases hci with h | h | h <;> simp [h]

/-- C2 amended-claim witness: on the concrete three-chunk index, the
context of the knowledge step is the hit text itself, and the
tool expansion contains the preceding chunk of the hit. -/
theorem knowledge_context_and_tool_expansion_witness :
    (rag_agent [mkHuman "q"] [kbHit] "r").2.2 =
      some (strJoin "\n" ([kbHit].map (fun d => d.content))) ∧
    "alpha" ∈ retrieve_support_docs kbIndex [kbHit] :=
  ⟨knowledge_context_and_tool_expansion.1 [mkHuman "q"] [kbHit] "r" (by decide),
   knowledge_context_and_tool_expansion.2 kbIndex [kbHit] kbHit
     ⟨some "faq.md", some 0, "alpha"⟩ "faq.md" 1 (List.mem_singleton.mpr rfl)
     rfl rfl (by simp [kbIndex]) rfl (Or.inl (by decide))⟩

end CsWorkflow
